import Mathlib

/-
Shallow embedding of the photography-portfolio Cloudflare Worker
(`src/unnamed/part_000`): a router over three fixed API paths, a KV-backed
read-through cache for Notion metadata, an R2-backed durable image store
populated by `cacheImageToR2`, and direct image serving from R2.

External collaborators (the Notion API, the outbound image origin, the R2
bucket and the KV namespace) are modelled as explicit values: the origin is a
function from URL to a fetch outcome, the stores are association lists, and
the Notion API is a record of query results.  JavaScript exceptions are
modelled with `Except` / explicit flags, and JavaScript truthiness on strings
and numbers is modelled by the `jsOr*` combinators below.
-/

namespace PhotoApi

/-- JavaScript `a || b` for an optional string `a` (absent and the empty
string are both falsy). -/
def jsOrS (a : Option String) (d : String) : String :=
  match a with
  | none => d
  | some s => if s = "" then d else s

/-- JavaScript `a || b` for a present string `a` (the empty string is falsy). -/
def jsOr2 (a d : String) : String :=
  if a = "" then d else a

/-- JavaScript `a || b` for an optional number `a` (absent and `0` are falsy). -/
def jsOrI (a : Option Int) (d : Int) : Int :=
  match a with
  | none => d
  | some n => if n = 0 then d else n

/-- Characters of a string up to (excluding) the first occurrence of `sep`:
the JavaScript idiom `s.split(sep)[0]` at character level. -/
def takeUntilChar (sep : Char) : List Char → List Char
  | [] => []
  | c :: cs => if c = sep then [] else c :: takeUntilChar sep cs

/-- JavaScript `s.split(sep)` for a one-character separator, at character
level (total, structurally recursive, and hence kernel-computable). -/
def splitOnChar (sep : Char) : List Char → List (List Char)
  | [] => [[]]
  | c :: cs =>
    let rest := splitOnChar sep cs
    if c = sep then [] :: rest
    else
      match rest with
      | [] => [[c]]
      | g :: gs => (c :: g) :: gs

/-- JavaScript `s.startsWith(pre)`. -/
def strStartsWith (s pre : String) : Bool :=
  pre.data.isPrefixOf s.data

/-- JavaScript `s.substring(1)`: drop the first character. -/
def dropFirstChar (s : String) : String :=
  String.mk (s.data.drop 1)

/-- JavaScript `s.split(sep).pop()`: the last `sep`-separated segment. -/
def lastSegment (sep : Char) (s : String) : String :=
  String.mk ((splitOnChar sep s.data).getLastD [])

-- ============================================
-- The durable image store (R2 bucket binding PHOTO_BUCKET)
-- ============================================

/-- One stored R2 object: its `httpMetadata.contentType` (the empty string
standing for an absent content type) and its body bytes. -/
structure R2Object where
  contentType : String
  body : String
deriving Repr, DecidableEq

/-- The R2 bucket: an association list of key/object pairs, together with
failure switches for the fallible store operations (`put` throwing a
store-write error, `get` throwing an R2 read error). -/
structure Store where
  objects : List (String × R2Object)
  putFails : Bool
  getFails : Bool
deriving Repr, DecidableEq

/-- `bucket.head(key)` / successful `bucket.get(key)`: the object stored at
`key`, if any. -/
def Store.headObj (st : Store) (key : String) : Option R2Object :=
  (st.objects.find? (fun p => p.1 = key)).map (fun p => p.2)

/-- A successful `bucket.put(key, body, { httpMetadata })`: record the object
under `key` (newest entry shadows older ones). -/
def Store.putObj (st : Store) (key : String) (obj : R2Object) : Store :=
  { st with objects := (key, obj) :: st.objects }

-- ============================================
-- The outbound image origin (global fetch)
-- ============================================

/-- Outcome of an outbound `fetch(url)`: a network error (the promise
rejects) or an HTTP response with a status, an optional Content-Type header
and a body. -/
inductive FetchResult where
  | networkError : FetchResult
  | response (status : Nat) (contentType : Option String) (body : String) : FetchResult
deriving Repr, DecidableEq

-- ============================================
-- cacheImageToR2 (src/unnamed/part_000 lines 225-271)
-- ============================================

/-- The R2 key used by `cacheImageToR2`: `images/(blockId).jpg`. -/
def r2KeyFor (blockId : String) : String :=
  "images/" ++ blockId ++ ".jpg"

/-- The public URL returned by `cacheImageToR2`:
`(env.PUBLIC_URL or empty)/images/(blockId).jpg`. -/
def publicUrlFor (publicURL : Option String) (blockId : String) : String :=
  jsOrS publicURL "" ++ "/images/" ++ blockId ++ ".jpg"

/-- Result of one `cacheImageToR2` call: the returned URL, the bucket after
the call, how many existence checks (`head`), origin fetches and store writes
were issued, whether the public URL was returned (`ok`), and whether an error
was raised and swallowed by the function's own try/catch (`caught`). -/
structure CacheResult where
  url : String
  bucket : Option Store
  heads : Nat
  fetches : Nat
  puts : Nat
  ok : Bool
  caught : Bool
deriving Repr, DecidableEq

/-- `cacheImageToR2(notionUrl, blockId, env)` from `src/unnamed/part_000`:
guard on a falsy URL or a missing bucket binding, existence check via
`head`, origin download, store write, with every error of the fetch/persist
steps caught locally and the original URL returned as fallback. -/
def cacheImageToR2 (notionUrl blockId : String) (bucket : Option Store)
    (publicURL : Option String) (origin : String → FetchResult) : CacheResult :=
  match bucket with
  | none =>
    -- if (!notionUrl || !env.PHOTO_BUCKET) return notionUrl;
    { url := notionUrl, bucket := none, heads := 0, fetches := 0, puts := 0,
      ok := false, caught := false }
  | some st =>
    if notionUrl = "" then
      { url := notionUrl, bucket := some st, heads := 0, fetches := 0, puts := 0,
        ok := false, caught := false }
    else
      let r2Key := r2KeyFor blockId
      match st.headObj r2Key with
      | some _ =>
        -- existing: return the public URL without fetching
        { url := publicUrlFor publicURL blockId, bucket := some st,
          heads := 1, fetches := 0, puts := 0, ok := true, caught := false }
      | none =>
        match origin notionUrl with
        | .networkError =>
          -- await fetch(notionUrl) rejected: caught, fall back to notionUrl
          { url := notionUrl, bucket := some st, heads := 1, fetches := 1,
            puts := 0, ok := false, caught := true }
        | .response status ct body =>
          if 200 ≤ status ∧ status ≤ 299 then
            if st.putFails then
              -- await bucket.put(...) threw: caught, fall back to notionUrl
              { url := notionUrl, bucket := some st, heads := 1, fetches := 1,
                puts := 1, ok := false, caught := true }
            else
              { url := publicUrlFor publicURL blockId,
                bucket := some (st.putObj r2Key
                  { contentType := jsOrS ct "image/jpeg", body := body }),
                heads := 1, fetches := 1, puts := 1, ok := true, caught := false }
          else
            -- throw new Error(`Failed to fetch image: ...`): caught below
            { url := notionUrl, bucket := some st, heads := 1, fetches := 1,
              puts := 0, ok := false, caught := true }

-- ============================================
-- Notion metadata model (property bags and page content blocks)
-- ============================================

/-- A file reference inside an image block (`block.image.file` or
`block.image.external`). -/
structure FileRef where
  url : String
deriving Repr, DecidableEq

/-- The payload of a Notion `image` block: an optional internal file
reference, an optional external file reference, and the caption's
`plain_text` projections. -/
structure ImageBlock where
  file : Option FileRef
  external : Option FileRef
  caption : List String
deriving Repr, DecidableEq

/-- One block of the page content returned by `getPageDetails`. -/
structure Block where
  type : String
  image : Option ImageBlock
deriving Repr, DecidableEq

/-- `getPageDetails` response: its `results` array of blocks. -/
structure PageDetails where
  results : List Block
deriving Repr, DecidableEq

/-- A title property: the `plain_text` projections of its `title` array. -/
structure TitleProp where
  title : List String
deriving Repr, DecidableEq

/-- A rich-text property: the `plain_text` projections of its `rich_text`
array. -/
structure TextProp where
  rich_text : List String
deriving Repr, DecidableEq

/-- A number property (`number` may be null). -/
structure NumberProp where
  number : Option Int
deriving Repr, DecidableEq

/-- The property bag of a collection record, with the properties the worker
reads. -/
structure Properties where
  Name : Option TitleProp
  Subtitle : Option TextProp
  Location : Option TextProp
  Year : Option NumberProp
  Description : Option TextProp
deriving Repr, DecidableEq

/-- One result of the Notion database query: page id and property bag. -/
structure PageResult where
  id : String
  properties : Properties
deriving Repr, DecidableEq

/-- The Notion API as seen by the worker: the database query (used by
`handleCollections`) and the per-page info / details endpoints, each either
succeeding or failing with an HTTP status (a failing response makes the
wrapper throw). -/
structure NotionWorld where
  queryResults : Except Nat (List PageResult)
  pageInfo : String → Except Nat Properties
  pageDetails : String → Except Nat PageDetails

/-- One entry produced by `extractImages`. -/
structure NotionImage where
  url : String
  caption : String
deriving Repr, DecidableEq

/-- `extractImages(pageDetails)` from `src/unnamed/part_000` lines 340-350:
keep the `image` blocks, project `image.file.url || image.external.url || empty`
and the first caption text, and drop entries with a falsy URL. -/
def extractImages (pd : Option PageDetails) : List NotionImage :=
  match pd with
  | none => []
  | some d =>
    ((d.results.filter (fun b => b.type = "image")).map (fun b =>
      ({ url := jsOrS ((b.image.bind (fun ib => ib.file)).map (fun f => f.url))
           (jsOrS ((b.image.bind (fun ib => ib.external)).map (fun f => f.url)) ""),
         caption := jsOrS (b.image.bind (fun ib => ib.caption.head?)) "" }
       : NotionImage))).filter (fun img => img.url ≠ "")

/-- `properties.Name?.title?.[0]?.plain_text || 'Untitled'`. -/
def titleOf (props : Properties) : String :=
  jsOrS ((props.Name.map (fun t => t.title)).bind List.head?) "Untitled"

/-- `properties.X?.rich_text?.[0]?.plain_text || d`. -/
def richTextOf (p : Option TextProp) (d : String) : String :=
  jsOrS ((p.map (fun t => t.rich_text)).bind List.head?) d

/-- `properties.Year?.number || new Date().getFullYear()`; the current year
is passed in explicitly. -/
def yearOf (props : Properties) (nowYear : Int) : Int :=
  jsOrI (props.Year.bind (fun n => n.number)) nowYear

-- ============================================
-- Public JSON projections and the KV metadata cache
-- ============================================

/-- One entry of the collections listing (`handleCollections`). -/
structure Collection where
  id : String
  title : String
  subtitle : String
  location : String
  year : Int
  description : String
  count : Nat
  cover : String
  previewImages : List String
deriving Repr, DecidableEq

/-- One image entry of a collection detail (`handleCollectionDetail`). -/
structure CollectionImage where
  url : String
  title : String
  description : String
deriving Repr, DecidableEq

/-- The collection detail projection (`handleCollectionDetail`). -/
structure CollectionDetail where
  id : String
  title : String
  subtitle : String
  location : String
  year : Int
  description : String
  count : Nat
  cover : String
  images : List CollectionImage
deriving Repr, DecidableEq

/-- A JSON value as produced/consumed by the worker (JSON serialization
round-trips these shapes, so the embedding stores the structured value). -/
inductive JsonVal where
  | collections (cs : List Collection)
  | detail (c : CollectionDetail)
  | errorMsg (msg : String)
deriving Repr, DecidableEq

/-- One KV entry: the stored JSON value and the `expirationTtl` it was
written with. -/
structure KVEntry where
  value : JsonVal
  expirationTtl : Nat
deriving Repr, DecidableEq

/-- The CACHE_KV namespace: an association list of key/entry pairs. -/
structure KV where
  entries : List (String × KVEntry)
deriving Repr, DecidableEq

/-- `CACHE_KV.get(key, 'json')`. -/
def KV.get (kv : KV) (key : String) : Option JsonVal :=
  (kv.entries.find? (fun p => p.1 = key)).map (fun p => p.2.value)

/-- `CACHE_KV.put(key, JSON.stringify(v), { expirationTtl: ttl })` (newest
entry shadows older ones). -/
def KV.put (kv : KV) (key : String) (v : JsonVal) (ttl : Nat) : KV :=
  { entries := (key, { value := v, expirationTtl := ttl }) :: kv.entries }

-- ============================================
-- HTTP responses
-- ============================================

/-- A response body: plain text, a JSON value, or an R2 object stream. -/
inductive Body where
  | text (s : String)
  | json (v : JsonVal)
  | stream (bytes : String)
deriving Repr, DecidableEq

/-- An HTTP response: status, body and header list. -/
structure Response where
  status : Nat
  body : Body
  headers : List (String × String)
deriving Repr, DecidableEq

/-- Whether a response carries the header `k: v`. -/
def hasHeader (r : Response) (k v : String) : Bool :=
  r.headers.contains (k, v)

/-- `jsonResponse(data, extraHeaders)` from `src/unnamed/part_000` lines
352-360: a 200 JSON response with Content-Type, the permissive CORS header,
and the extra headers spread after them. -/
def jsonResponse (data : JsonVal) (extraHeaders : List (String × String)) : Response :=
  { status := 200,
    body := .json data,
    headers := [("Content-Type", "application/json"),
                ("Access-Control-Allow-Origin", "*")] ++ extraHeaders }

/-- The worker environment: the R2 bucket binding, the KV binding and the
PUBLIC_URL variable (each possibly absent).  The Notion credentials are only
threaded to the Notion wrappers, whose behaviour is the `NotionWorld`. -/
structure Env where
  PHOTO_BUCKET : Option Store
  CACHE_KV : Option KV
  PUBLIC_URL : Option String
deriving Repr, DecidableEq

-- ============================================
-- Handlers (src/unnamed/part_000 lines 83-219)
-- ============================================

/-- State threaded through a handler's `cacheImageToR2` calls: the bucket
and running counts of calls, origin fetches and store writes.  Concurrent
calls within one record use pairwise-distinct R2 keys, so this
linearization produces the same results and counts as the concurrent run. -/
structure ImgState where
  bucket : Option Store
  fetches : Nat
  puts : Nat
  calls : Nat
deriving Repr, DecidableEq

/-- Run one `cacheImageToR2` call in handler state. -/
def runCacheImage (s : ImgState) (url blockId : String) (publicURL : Option String)
    (origin : String → FetchResult) : String × ImgState :=
  let r := cacheImageToR2 url blockId s.bucket publicURL origin
  (r.url,
   { bucket := r.bucket, fetches := s.fetches + r.fetches,
     puts := s.puts + r.puts, calls := s.calls + 1 })

/-- The preview branch of `handleCollections`:
`images.slice(0, 3).map((img, i) => cacheImageToR2(img.url, id-preview-i, env))`,
returning the URLs in order. -/
def cachePreviews (rid : String) (publicURL : Option String)
    (origin : String → FetchResult) :
    List NotionImage → Nat → ImgState → List String × ImgState
  | [], _, s => ([], s)
  | img :: rest, i, s =>
    let r := runCacheImage s img.url (rid ++ "-preview-" ++ toString i) publicURL origin
    let rest2 := cachePreviews rid publicURL origin rest (i + 1) r.2
    (r.1 :: rest2.1, rest2.2)

/-- One record of `handleCollections` (lines 111-137): skip the record when
its page details failed to load, otherwise extract its images, cache the
cover and up to three previews, and build the listing projection. -/
def processCollectionRecord (result : PageResult) (details : Option PageDetails)
    (s : ImgState) (publicURL : Option String) (origin : String → FetchResult)
    (nowYear : Int) : Option Collection × ImgState :=
  match details with
  | none => (none, s)
  | some pd =>
    let images := extractImages (some pd)
    let cover := runCacheImage s (jsOrS (images.head?.map (fun img => img.url)) "")
      (result.id ++ "-cover") publicURL origin
    let previews := cachePreviews result.id publicURL origin (images.take 3) 0 cover.2
    (some { id := result.id,
            title := titleOf result.properties,
            subtitle := richTextOf result.properties.Subtitle "",
            location := richTextOf result.properties.Location "",
            year := yearOf result.properties nowYear,
            description := richTextOf result.properties.Description "",
            count := images.length,
            cover := cover.1,
            previewImages := previews.1.filter (fun u => u ≠ "") },
     previews.2)

/-- `getPageDetails(result.id, token).catch(err => null)`. -/
def detailsFor (world : NotionWorld) (pageId : String) : Option PageDetails :=
  match world.pageDetails pageId with
  | .ok d => some d
  | .error _ => none

/-- Process every query result of `handleCollections` in order. -/
def processAll (world : NotionWorld) (publicURL : Option String)
    (origin : String → FetchResult) (nowYear : Int) :
    List PageResult → ImgState → List (Option Collection) × ImgState
  | [], s => ([], s)
  | r :: rest, s =>
    let c := processCollectionRecord r (detailsFor world r.id) s publicURL origin nowYear
    let rest2 := processAll world publicURL origin nowYear rest c.2
    (c.1 :: rest2.1, rest2.2)

deriving instance DecidableEq for Except

/-- Outcome of a JSON handler: the response or the thrown error message,
the bucket and KV after the call, and effect counts (origin image fetches,
store writes, `cacheImageToR2` invocations, Notion API calls). -/
structure HandlerOut where
  result : Except String Response
  bucket : Option Store
  kv : Option KV
  imgFetches : Nat
  imgPuts : Nat
  cacheCalls : Nat
  notionCalls : Nat
deriving Repr, DecidableEq

/-- The versioned cache key of the collections listing. -/
def collectionsCacheKey : String := "collections:all:v2"

/-- `handleCollections(env)` (lines 83-156): KV read-through with key
`collections:all:v2` and TTL 300, Notion query on a miss, per-record
image caching, and a MISS-annotated JSON response whose value is also
written to KV (when the KV binding is present). -/
def handleCollections (env : Env) (world : NotionWorld)
    (origin : String → FetchResult) (nowYear : Int) : HandlerOut :=
  match env.CACHE_KV.bind (fun kv => (kv.get collectionsCacheKey).map (fun v => (kv, v))) with
  | some (kv, cached) =>
    { result := .ok (jsonResponse cached [("X-Cache", "HIT")]),
      bucket := env.PHOTO_BUCKET, kv := some kv,
      imgFetches := 0, imgPuts := 0, cacheCalls := 0, notionCalls := 0 }
  | none =>
    match world.queryResults with
    | .error status =>
      { result := .error ("Notion API error: " ++ toString status),
        bucket := env.PHOTO_BUCKET, kv := env.CACHE_KV,
        imgFetches := 0, imgPuts := 0, cacheCalls := 0, notionCalls := 1 }
    | .ok results =>
      let s0 : ImgState := { bucket := env.PHOTO_BUCKET, fetches := 0, puts := 0, calls := 0 }
      let pr := processAll world env.PUBLIC_URL origin nowYear results s0
      let validCollections := pr.1.filterMap (fun c => c)
      let kvOut := match env.CACHE_KV with
        | some kv => some (kv.put collectionsCacheKey (.collections validCollections) 300)
        | none => none
      { result := .ok (jsonResponse (.collections validCollections)
          [("X-Cache", "MISS"), ("Cache-Control", "public, max-age=300")]),
        bucket := pr.2.bucket, kv := kvOut,
        imgFetches := pr.2.fetches, imgPuts := pr.2.puts,
        cacheCalls := pr.2.calls, notionCalls := 1 }

/-- The versioned cache key of a single collection. -/
def detailCacheKey (collectionId : String) : String :=
  "collection:" ++ collectionId ++ ":v2"

/-- The image phase of `handleCollectionDetail`:
`allImages.map((img, i) => cacheImageToR2(img.url, collectionId-i, env).then(...))`. -/
def cacheDetailImages (cid : String) (publicURL : Option String)
    (origin : String → FetchResult) :
    List NotionImage → Nat → ImgState → List CollectionImage × ImgState
  | [], _, s => ([], s)
  | img :: rest, i, s =>
    let r := runCacheImage s img.url (cid ++ "-" ++ toString i) publicURL origin
    let rest2 := cacheDetailImages cid publicURL origin rest (i + 1) r.2
    (({ url := r.1,
        title := jsOr2 img.caption ("图片 " ++ toString (i + 1)),
        description := jsOr2 img.caption "" } : CollectionImage) :: rest2.1, rest2.2)

/-- `handleCollectionDetail(collectionId, env)` (lines 162-219): KV
read-through with key `collection:(id):v2` and TTL 600, `getPageInfo` and
`getPageDetails` on a miss (either failure throws), image caching for every
extracted image, and a MISS-annotated JSON response also written to KV. -/
def handleCollectionDetail (collectionId : String) (env : Env) (world : NotionWorld)
    (origin : String → FetchResult) (nowYear : Int) : HandlerOut :=
  match env.CACHE_KV.bind (fun kv => (kv.get (detailCacheKey collectionId)).map (fun v => (kv, v))) with
  | some (kv, cached) =>
    { result := .ok (jsonResponse cached [("X-Cache", "HIT")]),
      bucket := env.PHOTO_BUCKET, kv := some kv,
      imgFetches := 0, imgPuts := 0, cacheCalls := 0, notionCalls := 0 }
  | none =>
    match world.pageInfo collectionId, world.pageDetails collectionId with
    | .error status, _ =>
      { result := .error ("Failed to fetch page info: " ++ toString status),
        bucket := env.PHOTO_BUCKET, kv := env.CACHE_KV,
        imgFetches := 0, imgPuts := 0, cacheCalls := 0, notionCalls := 2 }
    | .ok _, .error status =>
      { result := .error ("Failed to fetch page details: " ++ toString status),
        bucket := env.PHOTO_BUCKET, kv := env.CACHE_KV,
        imgFetches := 0, imgPuts := 0, cacheCalls := 0, notionCalls := 2 }
    | .ok props, .ok pd =>
      let allImages := extractImages (some pd)
      let s0 : ImgState := { bucket := env.PHOTO_BUCKET, fetches := 0, puts := 0, calls := 0 }
      let ci := cacheDetailImages collectionId env.PUBLIC_URL origin allImages 0 s0
      let cachedImages := ci.1
      let collection : CollectionDetail :=
        { id := collectionId,
          title := titleOf props,
          subtitle := richTextOf props.Subtitle "",
          location := richTextOf props.Location "",
          year := yearOf props nowYear,
          description := richTextOf props.Description "",
          count := cachedImages.length,
          cover := jsOrS (cachedImages.head?.map (fun img => img.url)) "",
          images := cachedImages }
      let kvOut := match env.CACHE_KV with
        | some kv => some (kv.put (detailCacheKey collectionId) (.detail collection) 600)
        | none => none
      { result := .ok (jsonResponse (.detail collection)
          [("X-Cache", "MISS"), ("Cache-Control", "public, max-age=600")]),
        bucket := ci.2.bucket, kv := kvOut,
        imgFetches := ci.2.fetches, imgPuts := ci.2.puts,
        cacheCalls := ci.2.calls, notionCalls := 2 }

-- ============================================
-- handleImageRequest (lines 53-77) and the router (lines 5-47)
-- ============================================

/-- `handleImageRequest(pathname, env)`: read the R2 object at the key
`pathname` minus its leading slash.  A missing bucket binding or a throwing
`get` is caught by the handler's own try/catch and becomes a plain 500;
a missing object is a plain 404; a found object is streamed with its stored
content type (default `image/jpeg`), an immutable cache directive and the
permissive CORS header. -/
def handleImageRequest (pathname : String) (env : Env) : Response :=
  let key := dropFirstChar pathname
  match env.PHOTO_BUCKET with
  | none =>
    { status := 500, body := .text "Error fetching image", headers := [] }
  | some st =>
    if st.getFails then
      { status := 500, body := .text "Error fetching image", headers := [] }
    else
      match st.headObj key with
      | none => { status := 404, body := .text "Image not found", headers := [] }
      | some obj =>
        { status := 200, body := .stream obj.body,
          headers := [("Content-Type", jsOr2 obj.contentType "image/jpeg"),
                      ("Cache-Control", "public, max-age=31536000, immutable"),
                      ("Access-Control-Allow-Origin", "*")] }

/-- The OPTIONS preflight reply (lines 8-16): an empty 200 with the CORS
headers. -/
def corsPreflightResponse : Response :=
  { status := 200, body := .text "",
    headers := [("Access-Control-Allow-Origin", "*"),
                ("Access-Control-Allow-Methods", "GET, POST, OPTIONS"),
                ("Access-Control-Allow-Headers", "Content-Type")] }

/-- The top-level catch (lines 34-43): a 500 JSON error body with
Content-Type and the permissive CORS header. -/
def errorResponse (msg : String) : Response :=
  { status := 500, body := .json (.errorMsg msg),
    headers := [("Content-Type", "application/json"),
                ("Access-Control-Allow-Origin", "*")] }

/-- Full router outcome: the response and the stores after the request. -/
structure FetchOut where
  response : Response
  bucket : Option Store
  kv : Option KV
deriving Repr, DecidableEq

/-- The worker's `fetch(request, env)` (lines 5-47): OPTIONS preflight,
then routing on the pathname (the query string is parsed into `search` but
never read by the router), with a 404 for unmatched paths and the top-level
try/catch turning a thrown handler error into a 500 JSON response. -/
def workerFetch (method pathname : String) (_search : List (String × String))
    (env : Env) (world : NotionWorld) (origin : String → FetchResult)
    (nowYear : Int) : FetchOut :=
  if method = "OPTIONS" then
    { response := corsPreflightResponse, bucket := env.PHOTO_BUCKET, kv := env.CACHE_KV }
  else if pathname = "/api/collections" then
    let out := handleCollections env world origin nowYear
    match out.result with
    | .ok r => { response := r, bucket := out.bucket, kv := out.kv }
    | .error msg => { response := errorResponse msg, bucket := out.bucket, kv := out.kv }
  else if strStartsWith pathname "/api/collection/" then
    let collectionId := lastSegment '/' pathname
    let out := handleCollectionDetail collectionId env world origin nowYear
    match out.result with
    | .ok r => { response := r, bucket := out.bucket, kv := out.kv }
    | .error msg => { response := errorResponse msg, bucket := out.bucket, kv := out.kv }
  else if strStartsWith pathname "/images/" then
    { response := handleImageRequest pathname env,
      bucket := env.PHOTO_BUCKET, kv := env.CACHE_KV }
  else
    { response := { status := 404, body := .text "Not Found", headers := [] },
      bucket := env.PHOTO_BUCKET, kv := env.CACHE_KV }

-- ============================================
-- Stable-Key Deriver (spec section 4.1; README "Image ID Extraction")
-- ============================================

/-- Modelled from the spec: the query string of a URL carries the expiring
signature, so derivation works on the URL with everything from the first
question mark on removed (`Hash of the base URL`, README line 248). -/
def stripQuery (sourceUrl : String) : String :=
  String.mk (takeUntilChar '?' sourceUrl.data)

/-- A hexadecimal digit, upper or lower case. -/
def isHexDigit (c : Char) : Bool :=
  c.isDigit || ('a' ≤ c && c ≤ 'f') || ('A' ≤ c && c ≤ 'F')

/-- Whether a path segment is UUID-shaped: five hyphen-separated hex groups
of lengths 8, 4, 4, 4 and 12. -/
def isUuidShaped (s : String) : Bool :=
  let groups := splitOnChar '-' s.data
  (groups.map List.length == [8, 4, 4, 4, 12]) && groups.all (fun g => g.all isHexDigit)

/-- Modelled from the spec: the README documents extracting a stable FILE-ID
from Notion's storage URL (`the file identifier immediately before the
filename in its storage path`, spec section 4.1; README lines 244-248), but
the extraction routine itself is not among the provided sources.  The
UUID-shaped segment immediately before the final path segment of the
query-stripped URL, when present. -/
def parseUuidSegment (sourceUrl : String) : Option String :=
  match (splitOnChar '/' (stripQuery sourceUrl).data).reverse with
  | _ :: candidate :: _ =>
    let c := String.mk candidate
    if isUuidShaped c then some c else none
  | _ => none

/-- Modelled from the spec: `a deterministic hash over sourceUrl with its
query string removed` (spec section 4.1); the concrete hash function is not
among the provided sources, so any deterministic string hash represents it.
A 32-bit polynomial rolling hash. -/
def fallbackHash (s : String) : Nat :=
  s.data.foldl (fun h c => (h * 131 + c.toNat) % 4294967296) 0

/-- Modelled from the spec: `derive(sourceUrl, externalHint?) -> stableId`
(spec section 4.1).  The caller-supplied hint wins; otherwise the UUID-shaped
path segment; otherwise the deterministic hash of the query-stripped URL.
The only call sites in the sources always supply the hint (record ID plus
sequence index, e.g. `collectionId-i` in handleCollectionDetail). -/
def derive (sourceUrl : String) (externalHint : Option String) : String :=
  match externalHint with
  | some hint => hint
  | none =>
    match parseUuidSegment sourceUrl with
    | some uuid => uuid
    | none => "img-" ++ toString (fallbackHash (stripQuery sourceUrl))

/-- The external hint `handleCollectionDetail` supplies for image `i` of
collection `cid` (src/unnamed/part_000 line 187). -/
def detailHintFor (cid : String) (i : Nat) : String :=
  cid ++ "-" ++ toString i

-- ============================================
-- Timed model of the concurrent image phase (spec section 5)
-- ============================================

/-- Completion time of `Promise.all` over tasks that are all started when
the array literal is built: the combined promise settles when the slowest
task settles. -/
def promiseAllDuration (ds : List Nat) : Nat :=
  ds.foldr max 0

/-- Completion time of the same tasks awaited one after the other. -/
def sequentialDuration (ds : List Nat) : Nat :=
  ds.sum

/-- Duration of one `cacheImageToR2` call under a latency model `lat` for
origin downloads: the download time when the call issues an origin fetch,
nothing otherwise (the existence check transfers no body). -/
def cacheImageDuration (notionUrl blockId : String) (bucket : Option Store)
    (publicURL : Option String) (origin : String → FetchResult)
    (lat : String → Nat) : Nat :=
  (cacheImageToR2 notionUrl blockId bucket publicURL origin).fetches * lat notionUrl

/-- Durations of the image-phase tasks of `handleCollectionDetail`
(lines 185-194): `allImages.map((img, i) => cacheImageToR2(img.url,
collectionId-i, env))` builds every promise up front, each racing against
the same initial bucket. -/
def detailImageTaskDurations (allImages : List NotionImage) (cid : String)
    (bucket : Option Store) (publicURL : Option String)
    (origin : String → FetchResult) (lat : String → Nat) : List Nat :=
  (List.range allImages.length).zipWith
    (fun i img => cacheImageDuration img.url (detailHintFor cid i) bucket publicURL origin lat)
    allImages

/-- Completion time of the image phase of `handleCollectionDetail`: the
tasks are combined with `Promise.all`, so the phase ends with the slowest
task. -/
def detailImagePhaseDuration (allImages : List NotionImage) (cid : String)
    (bucket : Option Store) (publicURL : Option String)
    (origin : String → FetchResult) (lat : String → Nat) : Nat :=
  promiseAllDuration (detailImageTaskDurations allImages cid bucket publicURL origin lat)

-- ============================================
-- Concrete test fixtures
-- ============================================

/-- An origin whose every fetch fails with a network error. -/
def originFail : String → FetchResult := fun _ => .networkError

/-- An origin whose every fetch succeeds with a PNG body. -/
def originOk : String → FetchResult := fun _ => .response 200 (some "image/png") "BYTES"

/-- A stored object fixture. -/
def obj1 : R2Object := { contentType := "image/png", body := "BYTES" }

/-- A bucket already holding the object for block id b1. -/
def st1 : Store :=
  { objects := [(r2KeyFor "b1", obj1)], putFails := false, getFails := false }

/-- An empty, healthy bucket. -/
def stEmpty : Store := { objects := [], putFails := false, getFails := false }

/-- An empty KV namespace. -/
def kvEmpty : KV := { entries := [] }

/-- A KV namespace holding entries for both versioned cache keys. -/
def kvHit : KV :=
  { entries := [(collectionsCacheKey, { value := .collections [], expirationTtl := 300 }),
                (detailCacheKey "c1", { value := .collections [], expirationTtl := 600 })] }

/-- A property bag with every property absent. -/
def propsEmpty : Properties :=
  { Name := none, Subtitle := none, Location := none, Year := none, Description := none }

/-- An environment with the bucket `st1` and the warm KV `kvHit`. -/
def envHit : Env :=
  { PHOTO_BUCKET := some st1, CACHE_KV := some kvHit, PUBLIC_URL := some "https://pub" }

/-- An environment with no bucket binding and a cold KV. -/
def envMiss : Env :=
  { PHOTO_BUCKET := none, CACHE_KV := some kvEmpty, PUBLIC_URL := none }

/-- A Notion world whose query succeeds with no results and whose per-page
endpoints fail. -/
def world0 : NotionWorld :=
  { queryResults := .ok [], pageInfo := fun _ => .error 404, pageDetails := fun _ => .error 404 }

/-- A Notion world whose endpoints all succeed with empty content. -/
def worldOk : NotionWorld :=
  { queryResults := .ok [], pageInfo := fun _ => .ok propsEmpty,
    pageDetails := fun _ => .ok { results := [] } }

-- ============================================
-- Shared lemmas
-- ============================================

/-- A write makes the written object the one found at its key. -/
theorem headObj_putObj_self (st : Store) (key : String) (obj : R2Object) :
    (st.putObj key obj).headObj key = some obj := by
  simp [Store.headObj, Store.putObj]

/-- One `cacheImageToR2` call issues at most one origin fetch and at most
one store write. -/
theorem cacheImageToR2_effects_le_one (url blockId : String) (bucket : Option Store)
    (publicURL : Option String) (origin : String → FetchResult) :
    (cacheImageToR2 url blockId bucket publicURL origin).fetches ≤ 1 ∧
    (cacheImageToR2 url blockId bucket publicURL origin).puts ≤ 1 := by
  cases bucket with
  | none => simp [cacheImageToR2]
  | some st =>
    by_cases hu : url = ""
    · simp [cacheImageToR2, hu]
    · cases hhd : st.headObj (r2KeyFor blockId) with
      | some o => simp [cacheImageToR2, hu, hhd]
      | none =>
        cases hor : origin url with
        | networkError => simp [cacheImageToR2, hu, hhd, hor]
        | response s ct b =>
          by_cases hok : 200 ≤ s ∧ s ≤ 299
          · by_cases hpf : st.putFails <;> simp [cacheImageToR2, hu, hhd, hor, hok, hpf]
          · simp [cacheImageToR2, hu, hhd, hor, hok]

/-- The maximum of a list of durations is at most their sum. -/
theorem foldrMax_le_sum (l : List Nat) : l.foldr max 0 ≤ l.sum := by
  induction l with
  | nil => simp
  | cons a t ih =>
    simp only [List.foldr_cons, List.sum_cons]
    exact max_le (Nat.le_add_right a t.sum) (le_trans ih (Nat.le_add_left t.sum a))

/-- A pointwise bound on indexed task durations bounds their maximum by the
maximum of the per-image bounds. -/
theorem foldrMax_zipWith_le (f : Nat → NotionImage → Nat) (g : NotionImage → Nat)
    (h : ∀ i img, f i img ≤ g img) :
    ∀ (idx : List Nat) (imgs : List NotionImage),
      (idx.zipWith f imgs).foldr max 0 ≤ (imgs.map g).foldr max 0 := by
  intro idx
  induction idx with
  | nil => intro imgs; simp
  | cons i is ih =>
    intro imgs
    cases imgs with
    | nil => simp
    | cons img rest =>
      simp only [List.zipWith_cons_cons, List.map_cons, List.foldr_cons]
      exact max_le_max (h i img) (ih rest)

-- ============================================
-- Claim theorems
-- ============================================

/-- C9: if `cacheImageToR2` is called with a falsy (empty) source URL or the
durable image store binding is absent, it returns the input URL unchanged
immediately, performing no existence check, no origin fetch and no store
write. -/
theorem cacheImageToR2_falsy_guard (url blockId : String) (bucket : Option Store)
    (publicURL : Option String) (origin : String → FetchResult)
    (h : url = "" ∨ bucket = none) :
    cacheImageToR2 url blockId bucket publicURL origin =
      { url := url, bucket := bucket, heads := 0, fetches := 0, puts := 0,
        ok := false, caught := false } := by
  rcases h with h | h
  · subst h
    cases bucket with
    | none => simp [cacheImageToR2]
    | some st => simp [cacheImageToR2]
  · subst h
    simp [cacheImageToR2]

/-- C9 witness: a concrete call with an empty source URL. -/
theorem cacheImageToR2_falsy_guard_witness :
    ((("") : String) = "" ∨ (some stEmpty : Option Store) = none) ∧
    cacheImageToR2 "" "b9" (some stEmpty) none originFail =
      { url := "", bucket := some stEmpty, heads := 0, fetches := 0, puts := 0,
        ok := false, caught := false } :=
  ⟨Or.inl rfl,
   cacheImageToR2_falsy_guard "" "b9" (some stEmpty) none originFail (Or.inl rfl)⟩

/-- C1: when the key `images/(stableId).jpg` is already present in the
durable store, `cacheImageToR2` returns the corresponding public URL with no
origin fetch and no store write; and after any successful call, a second
call with the same stableId short-circuits, so the two calls together issue
at most one origin download and both return the same public URL. -/
theorem cacheImageToR2_idempotent (st : Store) (url blockId : String)
    (publicURL : Option String) (origin : String → FetchResult) :
    (url ≠ "" → ∀ obj, st.headObj (r2KeyFor blockId) = some obj →
      cacheImageToR2 url blockId (some st) publicURL origin =
        { url := publicUrlFor publicURL blockId, bucket := some st,
          heads := 1, fetches := 0, puts := 0, ok := true, caught := false }) ∧
    ((cacheImageToR2 url blockId (some st) publicURL origin).ok = true →
      (cacheImageToR2 url blockId (some st) publicURL origin).fetches +
        (cacheImageToR2 url blockId
          (cacheImageToR2 url blockId (some st) publicURL origin).bucket
          publicURL origin).fetches ≤ 1 ∧
      (cacheImageToR2 url blockId
          (cacheImageToR2 url blockId (some st) publicURL origin).bucket
          publicURL origin).url =
        (cacheImageToR2 url blockId (some st) publicURL origin).url ∧
      (cacheImageToR2 url blockId
          (cacheImageToR2 url blockId (some st) publicURL origin).bucket
          publicURL origin).puts = 0) := by
  constructor
  · intro hu obj hobj
    simp [cacheImageToR2, hu, hobj]
  · intro hok
    by_cases hu : url = ""
    · simp [cacheImageToR2, hu] at hok
    · cases hhd : st.headObj (r2KeyFor blockId) with
      | some o =>
        simp [cacheImageToR2, hu, hhd]
      | none =>
        cases hor : origin url with
        | networkError => simp [cacheImageToR2, hu, hhd, hor] at hok
        | response s ct b =>
          by_cases hst : 200 ≤ s ∧ s ≤ 299
          · by_cases hpf : st.putFails
            · simp [cacheImageToR2, hu, hhd, hor, hst, hpf] at hok
            · simp [cacheImageToR2, hu, hhd, hor, hst, hpf, headObj_putObj_self]
          · simp [cacheImageToR2, hu, hhd, hor, hst] at hok

/-- C1 witness: a concrete bucket already holding `images/b1.jpg`. -/
theorem cacheImageToR2_idempotent_witness :
    ("http://o/x" ≠ "") ∧ st1.headObj (r2KeyFor "b1") = some obj1 ∧
    cacheImageToR2 "http://o/x" "b1" (some st1) (some "https://pub") originFail =
      { url := publicUrlFor (some "https://pub") "b1", bucket := some st1,
        heads := 1, fetches := 0, puts := 0, ok := true, caught := false } :=
  ⟨by decide, by decide,
   (cacheImageToR2_idempotent st1 "http://o/x" "b1" (some "https://pub") originFail).1
     (by decide) obj1 (by decide)⟩

/-- C2: for a non-empty source URL not yet cached, a failed origin fetch
(network error or non-success status) or a failed store write is caught
locally: `cacheImageToR2` returns the original source URL unchanged, and no
exception escapes (the caught flag records the swallowed error). -/
theorem cacheImageToR2_failure_fallback (st : Store) (url blockId : String)
    (publicURL : Option String) (origin : String → FetchResult)
    (hurl : url ≠ "") (hmiss : st.headObj (r2KeyFor blockId) = none)
    (hfail : origin url = .networkError ∨
      (∀ s ct b, origin url = .response s ct b → ¬(200 ≤ s ∧ s ≤ 299)) ∨
      st.putFails = true) :
    (cacheImageToR2 url blockId (some st) publicURL origin).url = url ∧
    (cacheImageToR2 url blockId (some st) publicURL origin).caught = true := by
  cases hor : origin url with
  | networkError => simp [cacheImageToR2, hurl, hmiss, hor]
  | response s ct b =>
    by_cases hst : 200 ≤ s ∧ s ≤ 299
    · by_cases hpf : st.putFails
      · simp [cacheImageToR2, hurl, hmiss, hor, hst, hpf]
      · rcases hfail with h | h | h
        · rw [hor] at h; exact absurd h (by simp)
        · exact absurd hst (h s ct b hor)
        · exact absurd h (by simp [hpf])
    · simp [cacheImageToR2, hurl, hmiss, hor, hst]

/-- C2 witness: a concrete uncached URL whose origin fetch fails. -/
theorem cacheImageToR2_failure_fallback_witness :
    ("http://o/y" ≠ "") ∧ stEmpty.headObj (r2KeyFor "b2") = none ∧
    originFail "http://o/y" = .networkError ∧
    (cacheImageToR2 "http://o/y" "b2" (some stEmpty) none originFail).url = "http://o/y" ∧
    (cacheImageToR2 "http://o/y" "b2" (some stEmpty) none originFail).caught = true := by
  have h := cacheImageToR2_failure_fallback stEmpty "http://o/y" "b2" none originFail
    (by decide) (by decide) (Or.inl rfl)
  exact ⟨by decide, by decide, rfl, h.1, h.2⟩

/-- C3: the stable identifier is independent of the transient URL's query
string: a supplied external hint (in the sources always the record ID plus a
sequence index) is used directly, and without a hint the derivation (UUID
path segment, then hash of the query-stripped URL) yields identical results
for two URLs that agree once their query strings are removed. -/
theorem derive_stableId_stable (u1 u2 : String) (hint : Option String)
    (hbase : stripQuery u1 = stripQuery u2) :
    (∀ u h, derive u (some h) = h) ∧
    derive u1 hint = derive u2 hint ∧
    (∀ u cid i, derive u (some (detailHintFor cid i)) = detailHintFor cid i) := by
  refine ⟨fun u h => rfl, ?_, fun u cid i => rfl⟩
  cases hint with
  | some h => rfl
  | none =>
    simp only [derive, parseUuidSegment, hbase]

/-- C3 witness: the same storage path under two rotated signatures. -/
theorem derive_stableId_stable_witness :
    stripQuery "https://s3.com/ws/d2c5a60e-8a7b-4c2d-9e1f-0a1b2c3d4e5f/p.jpg?sig=1" =
      stripQuery "https://s3.com/ws/d2c5a60e-8a7b-4c2d-9e1f-0a1b2c3d4e5f/p.jpg?sig=2" ∧
    derive "https://s3.com/ws/d2c5a60e-8a7b-4c2d-9e1f-0a1b2c3d4e5f/p.jpg?sig=1" none =
      derive "https://s3.com/ws/d2c5a60e-8a7b-4c2d-9e1f-0a1b2c3d4e5f/p.jpg?sig=2" none :=
  ⟨by decide,
   (derive_stableId_stable
     "https://s3.com/ws/d2c5a60e-8a7b-4c2d-9e1f-0a1b2c3d4e5f/p.jpg?sig=1"
     "https://s3.com/ws/d2c5a60e-8a7b-4c2d-9e1f-0a1b2c3d4e5f/p.jpg?sig=2"
     none (by decide)).2.1⟩

/-- C4 counterexample: the worker's response for the unmatched route `/nope`
carries no `Access-Control-Allow-Origin` header at all, refuting the claim
that every response includes it. -/
theorem worker_cors_counterexample :
    hasHeader (workerFetch "GET" "/nope" [] envHit world0 originFail 2024).response
      "Access-Control-Allow-Origin" "*" = false := by
  decide

/-- C4 amended: the OPTIONS preflight, every `jsonResponse` (collections
endpoints), the top-level 500 error response and the successful image
response carry `Access-Control-Allow-Origin: *`; the plain-text 404
responses (unmatched route, unknown image key) and the image-handler 500
do not. -/
theorem worker_cors_amended (env : Env) (st : Store) (path msg : String)
    (obj : R2Object) :
    hasHeader corsPreflightResponse "Access-Control-Allow-Origin" "*" = true ∧
    (∀ data extra, hasHeader (jsonResponse data extra) "Access-Control-Allow-Origin" "*" = true) ∧
    hasHeader (errorResponse msg) "Access-Control-Allow-Origin" "*" = true ∧
    (env.PHOTO_BUCKET = some st → st.getFails = false →
      st.headObj (dropFirstChar path) = some obj →
      hasHeader (handleImageRequest path env) "Access-Control-Allow-Origin" "*" = true) ∧
    (env.PHOTO_BUCKET = some st → st.getFails = false →
      st.headObj (dropFirstChar path) = none →
      hasHeader (handleImageRequest path env) "Access-Control-Allow-Origin" "*" = false) ∧
    (env.PHOTO_BUCKET = none →
      hasHeader (handleImageRequest path env) "Access-Control-Allow-Origin" "*" = false) ∧
    (env.PHOTO_BUCKET = some st → st.getFails = true →
      hasHeader (handleImageRequest path env) "Access-Control-Allow-Origin" "*" = false) ∧
    (∀ method search world origin nowYear, method ≠ "OPTIONS" →
      path ≠ "/api/collections" →
      strStartsWith path "/api/collection/" = false →
      strStartsWith path "/images/" = false →
      hasHeader (workerFetch method path search env world origin nowYear).response
        "Access-Control-Allow-Origin" "*" = false) := by
  refine ⟨rfl, fun data extra => ?_, ?_, ?_, ?_, ?_, ?_, ?_⟩
  · simp [hasHeader, jsonResponse]
  · simp [hasHeader, errorResponse]
  · intro hb hg hobj
    simp [hasHeader, handleImageRequest, hb, hg, hobj]
  · intro hb hg hobj
    simp [hasHeader, handleImageRequest, hb, hg, hobj]
  · intro hb
    simp [hasHeader, handleImageRequest, hb]
  · intro hb hg
    simp [hasHeader, handleImageRequest, hb, hg]
  · intro method search world origin nowYear hm h1 h2 h3
    simp [hasHeader, workerFetch, hm, h1, h2, h3]

/-- C4 amended witness: concrete image hit, image miss, image-handler 500
with a missing bucket binding, and unmatched route. -/
theorem worker_cors_amended_witness :
    (envHit.PHOTO_BUCKET = some st1 ∧ st1.getFails = false ∧
      st1.headObj (dropFirstChar "/images/b1.jpg") = some obj1 ∧
      hasHeader (handleImageRequest "/images/b1.jpg" envHit)
        "Access-Control-Allow-Origin" "*" = true) ∧
    (envMiss.PHOTO_BUCKET = none ∧
      hasHeader (handleImageRequest "/images/b1.jpg" envMiss)
        "Access-Control-Allow-Origin" "*" = false) ∧
    ("GET" ≠ "OPTIONS" ∧ "/nope" ≠ "/api/collections" ∧
      strStartsWith "/nope" "/api/collection/" = false ∧
      strStartsWith "/nope" "/images/" = false ∧
      hasHeader (workerFetch "GET" "/nope" [] envHit world0 originFail 2024).response
        "Access-Control-Allow-Origin" "*" = false) := by
  have h := worker_cors_amended envHit st1 "/images/b1.jpg" "m" obj1
  have h' := worker_cors_amended envHit st1 "/nope" "m" obj1
  have h2 := worker_cors_amended envMiss st1 "/images/b1.jpg" "m" obj1
  exact ⟨⟨rfl, rfl, by decide, h.2.2.2.1 rfl rfl (by decide)⟩,
         ⟨rfl, h2.2.2.2.2.2.1 rfl⟩,
         ⟨by decide, by decide, by decide, by decide,
          h'.2.2.2.2.2.2.2 "GET" [] world0 originFail 2024
            (by decide) (by decide) (by decide) (by decide)⟩⟩

/-- C6: a GET for an image key absent from the durable store yields a
client-visible 404, an unmatched path yields a 404, and both are distinct
from the 500 status used for internal errors. -/
theorem not_found_responses (env : Env) (st : Store) (method path : String)
    (search : List (String × String)) (world : NotionWorld)
    (origin : String → FetchResult) (nowYear : Int) :
    (env.PHOTO_BUCKET = some st → st.getFails = false →
      st.headObj (dropFirstChar path) = none →
      handleImageRequest path env =
        { status := 404, body := .text "Image not found", headers := [] }) ∧
    (method ≠ "OPTIONS" → path ≠ "/api/collections" →
      strStartsWith path "/api/collection/" = false →
      strStartsWith path "/images/" = false →
      (workerFetch method path search env world origin nowYear).response =
        { status := 404, body := .text "Not Found", headers := [] }) ∧
    (∀ msg, (errorResponse msg).status = 500) ∧ (404 : Nat) ≠ 500 := by
  refine ⟨?_, ?_, fun msg => rfl, by decide⟩
  · intro hb hg hobj
    simp [handleImageRequest, hb, hg, hobj]
  · intro hm h1 h2 h3
    simp [workerFetch, hm, h1, h2, h3]

/-- C6 witness: a concrete unknown image key and a concrete unmatched path. -/
theorem not_found_responses_witness :
    (envHit.PHOTO_BUCKET = some st1 ∧ st1.getFails = false ∧
      st1.headObj (dropFirstChar "/images/zzz.jpg") = none ∧
      handleImageRequest "/images/zzz.jpg" envHit =
        { status := 404, body := .text "Image not found", headers := [] }) ∧
    ("GET" ≠ "OPTIONS" ∧
      (workerFetch "GET" "/nope" [] envHit world0 originFail 2024).response =
        { status := 404, body := .text "Not Found", headers := [] }) := by
  have h := not_found_responses envHit st1 "GET" "/images/zzz.jpg" [] world0 originFail 2024
  have h' := not_found_responses envHit st1 "GET" "/nope" [] world0 originFail 2024
  exact ⟨⟨rfl, rfl, by decide, h.1 rfl rfl (by decide)⟩,
         ⟨by decide, h'.2.1 (by decide) (by decide) (by decide) (by decide)⟩⟩

/-- C7: when the requested key exists, the stored bytes are served unmodified
with the stored content type (default `image/jpeg`), a long-lived immutable
cache directive, and a 200 status; the router never reads the width/quality
query parameters, so no request fails because resizing is unsupported. -/
theorem image_serving_graceful (env : Env) (st : Store) (path : String)
    (obj : R2Object) (world : NotionWorld) (origin : String → FetchResult)
    (nowYear : Int) :
    (env.PHOTO_BUCKET = some st → st.getFails = false →
      st.headObj (dropFirstChar path) = some obj →
      handleImageRequest path env =
        { status := 200, body := .stream obj.body,
          headers := [("Content-Type", jsOr2 obj.contentType "image/jpeg"),
                      ("Cache-Control", "public, max-age=31536000, immutable"),
                      ("Access-Control-Allow-Origin", "*")] }) ∧
    (∀ method s1 s2, workerFetch method path s1 env world origin nowYear =
        workerFetch method path s2 env world origin nowYear) := by
  refine ⟨?_, fun method s1 s2 => rfl⟩
  intro hb hg hobj
  simp [handleImageRequest, hb, hg, hobj]

/-- C7 witness: the stored object at `images/b1.jpg` is served as stored. -/
theorem image_serving_graceful_witness :
    (envHit.PHOTO_BUCKET = some st1 ∧ st1.getFails = false ∧
      st1.headObj (dropFirstChar "/images/b1.jpg") = some obj1) ∧
    handleImageRequest "/images/b1.jpg" envHit =
      { status := 200, body := .stream obj1.body,
        headers := [("Content-Type", jsOr2 obj1.contentType "image/jpeg"),
                    ("Cache-Control", "public, max-age=31536000, immutable"),
                    ("Access-Control-Allow-Origin", "*")] } :=
  ⟨⟨rfl, rfl, by decide⟩,
   (image_serving_graceful envHit st1 "/images/b1.jpg" obj1 world0 originFail 2024).1
     rfl rfl (by decide)⟩

/-- C5: on a cache hit both collection endpoints return the stored JSON
value annotated `X-Cache: HIT` without touching Notion; on a miss the
upstream computation runs, its result is written under the versioned key
with the configured TTL (300 seconds for the listing, 600 for a single
collection) and returned annotated `X-Cache: MISS`. -/
theorem kv_read_through (env : Env) (world : NotionWorld)
    (origin : String → FetchResult) (nowYear : Int) (kv : KV) (cid : String) :
    (∀ v, env.CACHE_KV = some kv → kv.get collectionsCacheKey = some v →
      handleCollections env world origin nowYear =
        { result := .ok (jsonResponse v [("X-Cache", "HIT")]),
          bucket := env.PHOTO_BUCKET, kv := some kv,
          imgFetches := 0, imgPuts := 0, cacheCalls := 0, notionCalls := 0 }) ∧
    (∀ rs, env.CACHE_KV = some kv → kv.get collectionsCacheKey = none →
      world.queryResults = .ok rs →
      ∃ cs, (handleCollections env world origin nowYear).result =
          .ok (jsonResponse (.collections cs)
            [("X-Cache", "MISS"), ("Cache-Control", "public, max-age=300")]) ∧
        (handleCollections env world origin nowYear).kv =
          some (kv.put collectionsCacheKey (.collections cs) 300) ∧
        (handleCollections env world origin nowYear).notionCalls = 1) ∧
    (∀ v, env.CACHE_KV = some kv → kv.get (detailCacheKey cid) = some v →
      handleCollectionDetail cid env world origin nowYear =
        { result := .ok (jsonResponse v [("X-Cache", "HIT")]),
          bucket := env.PHOTO_BUCKET, kv := some kv,
          imgFetches := 0, imgPuts := 0, cacheCalls := 0, notionCalls := 0 }) ∧
    (∀ props pd, env.CACHE_KV = some kv → kv.get (detailCacheKey cid) = none →
      world.pageInfo cid = .ok props → world.pageDetails cid = .ok pd →
      ∃ c, (handleCollectionDetail cid env world origin nowYear).result =
          .ok (jsonResponse (.detail c)
            [("X-Cache", "MISS"), ("Cache-Control", "public, max-age=600")]) ∧
        (handleCollectionDetail cid env world origin nowYear).kv =
          some (kv.put (detailCacheKey cid) (.detail c) 600) ∧
        (handleCollectionDetail cid env world origin nowYear).notionCalls = 2) := by
  refine ⟨?_, ?_, ?_, ?_⟩
  · intro v hkv hget
    simp [handleCollections, hkv, hget]
  · intro rs hkv hget hq
    simp only [handleCollections, hkv, Option.some_bind, hget, Option.map_none, hq]
    exact ⟨_, rfl, rfl, rfl⟩
  · intro v hkv hget
    simp [handleCollectionDetail, hkv, hget]
  · intro props pd hkv hget hinfo hdet
    simp only [handleCollectionDetail, hkv, Option.some_bind, hget, Option.map_none,
      hinfo, hdet]
    exact ⟨_, rfl, rfl, rfl⟩

/-- C5 witness: a warm KV serves a HIT, a cold KV computes and stores a
MISS for both endpoints. -/
theorem kv_read_through_witness :
    (envHit.CACHE_KV = some kvHit ∧ kvHit.get collectionsCacheKey = some (.collections []) ∧
      handleCollections envHit world0 originFail 2024 =
        { result := .ok (jsonResponse (.collections []) [("X-Cache", "HIT")]),
          bucket := some st1, kv := some kvHit,
          imgFetches := 0, imgPuts := 0, cacheCalls := 0, notionCalls := 0 }) ∧
    (kvEmpty.get collectionsCacheKey = none ∧ worldOk.queryResults = .ok [] ∧
      ∃ cs, (handleCollections envMiss worldOk originFail 2024).result =
          .ok (jsonResponse (.collections cs)
            [("X-Cache", "MISS"), ("Cache-Control", "public, max-age=300")]) ∧
        (handleCollections envMiss worldOk originFail 2024).kv =
          some (kvEmpty.put collectionsCacheKey (.collections cs) 300) ∧
        (handleCollections envMiss worldOk originFail 2024).notionCalls = 1) ∧
    (kvEmpty.get (detailCacheKey "c1") = none ∧
      worldOk.pageInfo "c1" = .ok propsEmpty ∧
      ∃ c, (handleCollectionDetail "c1" envMiss worldOk originFail 2024).result =
          .ok (jsonResponse (.detail c)
            [("X-Cache", "MISS"), ("Cache-Control", "public, max-age=600")]) ∧
        (handleCollectionDetail "c1" envMiss worldOk originFail 2024).kv =
          some (kvEmpty.put (detailCacheKey "c1") (.detail c) 600) ∧
        (handleCollectionDetail "c1" envMiss worldOk originFail 2024).notionCalls = 2) := by
  refine ⟨⟨rfl, by decide, ?_⟩, ⟨by decide, rfl, ?_⟩, ⟨by decide, rfl, ?_⟩⟩
  · exact (kv_read_through envHit world0 originFail 2024 kvHit "c1").1
      (.collections []) rfl (by decide)
  · exact (kv_read_through envMiss worldOk originFail 2024 kvEmpty "c1").2.1
      [] rfl (by decide) rfl
  · exact (kv_read_through envMiss worldOk originFail 2024 kvEmpty "c1").2.2.2
      propsEmpty { results := [] } rfl (by decide) rfl rfl

/-- C8: the image-caching tasks of a record's image list are combined with
Promise.all over promises all started up front, so the phase completes with
the slowest single download (bounded by the largest per-image download
latency), never later than running the same tasks sequentially would. -/
theorem detail_image_phase_concurrent (allImages : List NotionImage) (cid : String)
    (bucket : Option Store) (publicURL : Option String)
    (origin : String → FetchResult) (lat : String → Nat) :
    detailImagePhaseDuration allImages cid bucket publicURL origin lat =
      promiseAllDuration (detailImageTaskDurations allImages cid bucket publicURL origin lat) ∧
    detailImagePhaseDuration allImages cid bucket publicURL origin lat ≤
      (allImages.map (fun img => lat img.url)).foldr max 0 ∧
    detailImagePhaseDuration allImages cid bucket publicURL origin lat ≤
      sequentialDuration (detailImageTaskDurations allImages cid bucket publicURL origin lat) := by
  refine ⟨rfl, ?_, foldrMax_le_sum _⟩
  unfold detailImagePhaseDuration promiseAllDuration detailImageTaskDurations
  apply foldrMax_zipWith_le
  intro i img
  unfold cacheImageDuration
  calc (cacheImageToR2 img.url (detailHintFor cid i) bucket publicURL origin).fetches
        * lat img.url
      ≤ 1 * lat img.url := by
        exact Nat.mul_le_mul_right _
          (cacheImageToR2_effects_le_one img.url (detailHintFor cid i) bucket publicURL origin).1
    _ = lat img.url := Nat.one_mul _

/-- One `runCacheImage` step increments the call count by exactly one. -/
theorem runCacheImage_calls (s : ImgState) (url bid : String) (pub : Option String)
    (origin : String → FetchResult) :
    (runCacheImage s url bid pub origin).2.calls = s.calls + 1 := rfl

/-- One `runCacheImage` step adds at most one store write. -/
theorem runCacheImage_puts_le (s : ImgState) (url bid : String) (pub : Option String)
    (origin : String → FetchResult) :
    (runCacheImage s url bid pub origin).2.puts ≤ s.puts + 1 := by
  have h := (cacheImageToR2_effects_le_one url bid s.bucket pub origin).2
  show s.puts + (cacheImageToR2 url bid s.bucket pub origin).puts ≤ s.puts + 1
  omega

/-- C10 helper: the preview pass caches one image per list entry, writing at
most one object each, and returns as many URLs as entries. -/
theorem cachePreviews_spec (rid : String) (publicURL : Option String)
    (origin : String → FetchResult) :
    ∀ (l : List NotionImage) (i : Nat) (s : ImgState),
      (cachePreviews rid publicURL origin l i s).1.length = l.length ∧
      (cachePreviews rid publicURL origin l i s).2.calls = s.calls + l.length ∧
      (cachePreviews rid publicURL origin l i s).2.puts ≤ s.puts + l.length := by
  intro l
  induction l with
  | nil => intro i s; simp [cachePreviews]
  | cons img rest ih =>
    intro i s
    have hr := ih (i + 1)
      (runCacheImage s img.url (rid ++ "-preview-" ++ toString i) publicURL origin).2
    refine ⟨?_, ?_, ?_⟩
    · show ((runCacheImage s img.url (rid ++ "-preview-" ++ toString i) publicURL origin).1 ::
        (cachePreviews rid publicURL origin rest (i + 1)
          (runCacheImage s img.url (rid ++ "-preview-" ++ toString i) publicURL origin).2).1).length
        = (img :: rest).length
      simp [hr.1]
    · show (cachePreviews rid publicURL origin rest (i + 1)
          (runCacheImage s img.url (rid ++ "-preview-" ++ toString i) publicURL origin).2).2.calls
        = s.calls + (img :: rest).length
      rw [hr.2.1, runCacheImage_calls]
      simp only [List.length_cons]
      omega
    · show (cachePreviews rid publicURL origin rest (i + 1)
          (runCacheImage s img.url (rid ++ "-preview-" ++ toString i) publicURL origin).2).2.puts
        ≤ s.puts + (img :: rest).length
      have hp := runCacheImage_puts_le s img.url (rid ++ "-preview-" ++ toString i) publicURL origin
      calc (cachePreviews rid publicURL origin rest (i + 1)
              (runCacheImage s img.url (rid ++ "-preview-" ++ toString i) publicURL origin).2).2.puts
          ≤ (runCacheImage s img.url (rid ++ "-preview-" ++ toString i) publicURL origin).2.puts
              + rest.length := hr.2.2
        _ ≤ s.puts + (img :: rest).length := by
            simp only [List.length_cons]
            omega

/-- C10: a record with loaded page details yields a projection caching at
most four images (one cover call plus up to three preview calls, hence at
most four store writes), whose previewImages field has at most three
entries while count reports the full number of extracted images; a record
whose details failed to load is skipped without caching. -/
theorem collections_preview_bounds (r : PageResult) (pd : PageDetails)
    (s : ImgState) (publicURL : Option String) (origin : String → FetchResult)
    (nowYear : Int) :
    processCollectionRecord r none s publicURL origin nowYear = (none, s) ∧
    ∃ col, (processCollectionRecord r (some pd) s publicURL origin nowYear).1 = some col ∧
      col.count = (extractImages (some pd)).length ∧
      col.previewImages.length ≤ 3 ∧
      (processCollectionRecord r (some pd) s publicURL origin nowYear).2.calls =
        s.calls + 1 + min 3 (extractImages (some pd)).length ∧
      (processCollectionRecord r (some pd) s publicURL origin nowYear).2.calls ≤
        s.calls + 4 ∧
      (processCollectionRecord r (some pd) s publicURL origin nowYear).2.puts ≤
        s.puts + 4 := by
  constructor
  · rfl
  · set images := extractImages (some pd) with himg
    set cover := runCacheImage s (jsOrS (images.head?.map (fun img => img.url)) "")
      (r.id ++ "-cover") publicURL origin with hcover
    have hprev := cachePreviews_spec r.id publicURL origin (images.take 3) 0 cover.2
    have htake : (images.take 3).length = min 3 images.length := by
      simp [List.length_take]
    refine ⟨_, rfl, rfl, ?_, ?_, ?_, ?_⟩
    · calc ((cachePreviews r.id publicURL origin (images.take 3) 0 cover.2).1.filter
            (fun u => u ≠ "")).length
          ≤ (cachePreviews r.id publicURL origin (images.take 3) 0 cover.2).1.length :=
            List.length_filter_le _ _
        _ = (images.take 3).length := hprev.1
        _ ≤ 3 := by omega
    · have : cover.2.calls = s.calls + 1 := by simp [hcover, runCacheImage]
      rw [show (processCollectionRecord r (some pd) s publicURL origin nowYear).2 =
          (cachePreviews r.id publicURL origin (images.take 3) 0 cover.2).2 from rfl,
        hprev.2.1, this, htake]
    · have : cover.2.calls = s.calls + 1 := by simp [hcover, runCacheImage]
      rw [show (processCollectionRecord r (some pd) s publicURL origin nowYear).2 =
          (cachePreviews r.id publicURL origin (images.take 3) 0 cover.2).2 from rfl,
        hprev.2.1, this, htake]
      omega
    · have hc : cover.2.puts ≤ s.puts + 1 := by
        have := (cacheImageToR2_effects_le_one
          (jsOrS (images.head?.map (fun img => img.url)) "")
          (r.id ++ "-cover") s.bucket publicURL origin).2
        simp only [hcover, runCacheImage]
        omega
      calc (processCollectionRecord r (some pd) s publicURL origin nowYear).2.puts
          = (cachePreviews r.id publicURL origin (images.take 3) 0 cover.2).2.puts := rfl
        _ ≤ cover.2.puts + (images.take 3).length := hprev.2.2
        _ ≤ s.puts + 1 + 3 := by
            have h3 : (images.take 3).length ≤ 3 := by rw [htake]; omega
            omega
        _ = s.puts + 4 := by omega

end PhotoApi
